import Mathlib

/-!
Verification of the flow/DNS behavioral detection engine of
StratosphereLinuxIPS (`modules/flowalerts/conn.py` and the DNS analyzer).

The Python detectors are embedded shallowly: each check becomes a pure Lean
function over explicit state, the external Redis-backed key-value store is
an explicit table value threaded through the calls (`get` returns the stored
value, `set` overwrites it, as in the store contract of the specification),
and calls into external collaborators (`self.db.…`, `self.whitelist.…`,
`validators`, `utils`) become oracle parameters or small modelled helpers.
-/

namespace Slips

/-! ## Generic association tables

Python dicts keyed by strings are modelled as insertion-ordered association
lists: updating an existing key keeps its position, a new key is appended at
the end (Python 3.7+ dict semantics). -/

abbrev Table (α : Type) := List (String × α)

/-- `d[k]` as an `Option`: the value bound to the first (unique) matching key. -/
def tblLookup {α : Type} (t : Table α) (k : String) : Option α :=
  match t with
  | [] => none
  | (k', v) :: rest => if k' = k then some v else tblLookup rest k

/-- `d[k] = v`: update in place if the key exists, append otherwise. -/
def tblSet {α : Type} (t : Table α) (k : String) (v : α) : Table α :=
  match t with
  | [] => [(k, v)]
  | (k', w) :: rest => if k' = k then (k', v) :: rest else (k', w) :: tblSet rest k v

/-! ## Small Python-semantics helpers -/

/-- `str.lower()`, character by character. -/
def pyLower (s : String) : String := ⟨s.data.map Char.toLower⟩

/-- `str.endswith(suffix)` via the underlying character lists. -/
def pyEndsWith (s suffix : String) : Bool := suffix.data.isSuffixOf s.data

/-- `str.split(sep)` on the underlying character list (one-character
separator, as used with `"_"` in the source). -/
def splitChar (sep : Char) : List Char → List (List Char)
  | [] => [[]]
  | c :: rest =>
    let r := splitChar sep rest
    if c = sep then [] :: r
    else
      match r with
      | [] => [[c]]
      | grp :: rest' => (c :: grp) :: rest'

/-- `s.split("_")`. -/
def pySplitUnderscore (s : String) : List String :=
  (splitChar '_' s.data).map (fun l => ⟨l⟩)

/-- `s.split("_")[-1]` (total: empty string when the split is empty). -/
def pyLastSplit (s : String) : String :=
  ((pySplitUnderscore s).getLast?).getD ""

/-- `s.split("_")[1]` (total: empty string when out of range). -/
def pySecondSplit (s : String) : String := (pySplitUnderscore s).getD 1 ""

/-- `"sub" in s`: Python substring containment on the character lists. -/
def pyContains (s sub : String) : Bool :=
  (List.range (s.data.length + 1)).any (fun i => sub.data.isPrefixOf (s.data.drop i))

/-! ## Reconnection storm: `check_multiple_reconnection_attempts`

`conn.py` lines 194-234.  The per-profile/per-timewindow reconnection table
lives in the external store.  Modelled from the spec: the store is a
key-value store shared across processes (§5/§6), so `get_reconnections_for_tw`
returns the stored value (a copy) and only `setReconnections` writes a value
back.  The local dict mutated by the Python code is therefore discarded
unless `setReconnections` runs. -/

abbrev ReconnTable := Table (Nat × List String)

/-- `f"{saddr}-{daddr}-{dport}"`. -/
def reconnKey (saddr daddr : String) (dport : Nat) : String :=
  saddr ++ "-" ++ daddr ++ "-" ++ toString dport

structure ReconnEvidence where
  daddr : String
  uids : List String
  reconnections : Nat
deriving Repr, DecidableEq

/-- Result of one call: emitted evidence, the external store afterwards, and
whether the call read / wrote the external store. -/
structure ReconnResult where
  evidence : Option ReconnEvidence
  store : ReconnTable
  readStore : Bool
  wroteStore : Bool
deriving Repr, DecidableEq

/-- The incremented count the call computes for this flow's key
(`reconnections` right after the `try`/`except`). -/
def newReconnCount (store : ReconnTable) (key : String) : Nat :=
  match tblLookup store key with
  | some (n, _) => n + 1
  | none => 1

/-- `check_multiple_reconnection_attempts` (conn.py:194). -/
def check_multiple_reconnection_attempts (store : ReconnTable)
    (origstate saddr daddr : String) (dport : Nat) (uid : String) :
    ReconnResult :=
  if origstate ≠ "REJ" then
    ⟨none, store, false, false⟩
  else
    let key := reconnKey saddr daddr dport
    -- current_reconnections = self.db.get_reconnections_for_tw(...)
    let (reconnections, uids) :=
      match tblLookup store key with
      | some (n, us) => (n + 1, us ++ [uid])
      | none => (1, [uid])
    if reconnections < 5 then
      -- returns without calling setReconnections: the local increment is lost
      ⟨none, store, true, false⟩
    else
      -- evidence, then current_reconnections[key] = (0, []) and setReconnections
      ⟨some ⟨daddr, uids, reconnections⟩, tblSet store key (0, []), true, true⟩

structure ReconnFlow where
  origstate : String
  saddr : String
  daddr : String
  dport : Nat
  uid : String
deriving Repr, DecidableEq

/-- Process a sequence of flows, threading the external store between calls. -/
def runReconn (store : ReconnTable) :
    List ReconnFlow → List (Option ReconnEvidence) × ReconnTable
  | [] => ([], store)
  | f :: fs =>
    let r := check_multiple_reconnection_attempts store f.origstate f.saddr
      f.daddr f.dport f.uid
    let (evs, finalStore) := runReconn r.store fs
    (r.evidence :: evs, finalStore)

/-! ## P2P heuristic: `is_p2p` (conn.py:76-97)

`self.p2p_daddrs` is an in-memory dict `daddr -> count`, modelled as an
insertion-ordered table.  The checks mirror the source: the stored count is
compared against 6 *before* the increment (and the early `return True` skips
the increment), a missing key starts at 1, and the distinct-destination test
compares `len(p2p_daddrs)` against 5 after the update. -/

abbrev P2PState := Table Nat

/-- `is_p2p` (conn.py:76): returns the classification and the updated
`p2p_daddrs` dict. -/
def is_p2p (st : P2PState) (dport : Nat) (proto daddr : String) :
    Bool × P2PState :=
  if pyLower proto = "udp" ∧ 30000 < dport then
    match tblLookup st daddr with
    | some c =>
      if 6 ≤ c then (true, st)                 -- early return, no increment
      else
        let st' := tblSet st daddr (c + 1)
        (decide (5 ≤ st'.length), st')
    | none =>
      let st' := tblSet st daddr 1             -- KeyError: first time seen
      (decide (5 ≤ st'.length), st')
  else (false, st)

structure P2PConn where
  dport : Nat
  proto : String
  daddr : String
deriving Repr, DecidableEq

/-- UDP with destination port above 30000 (the only flows `is_p2p` counts). -/
def eligibleP2P (c : P2PConn) : Bool :=
  decide (pyLower c.proto = "udp") && decide (30000 < c.dport)

/-- Process a sequence of connections from a given `p2p_daddrs` state,
collecting each call's classification. -/
def p2pRun (st : P2PState) : List P2PConn → List Bool
  | [] => []
  | c :: cs =>
    let (r, st') := is_p2p st c.dport c.proto c.daddr
    r :: p2pRun st' cs

/-- Number of high-port UDP connections to destination `d` in a history. -/
def hitCount (hist : List P2PConn) (d : String) : Nat :=
  (hist.filter (fun c => eligibleP2P c && c.daddr == d)).length

/-- Distinct destinations of high-port UDP connections, in first-seen order. -/
def seenDaddrsAux (ks : List String) : List P2PConn → List String
  | [] => ks
  | c :: cs =>
    seenDaddrsAux
      (if eligibleP2P c && !(ks.contains c.daddr) then ks ++ [c.daddr] else ks) cs

def seenDaddrs (hist : List P2PConn) : List String := seenDaddrsAux [] hist

/-- The classification the C5 claim predicts for connection `c` after
history `hist`: eligible, and either its destination already has 6 hits or
the distinct destinations including this one number at least 5. -/
def p2pExpected (hist : List P2PConn) (c : P2PConn) : Bool :=
  eligibleP2P c &&
    (decide (6 ≤ hitCount hist c.daddr) ||
      decide (5 ≤ (seenDaddrs (hist ++ [c])).length))

/-! ## Connection without DNS resolution (conn.py:383-517)

`check_connection_without_dns_resolution`, its guard
`should_ignore_conn_without_dns` and the helper
`check_if_resolution_was_made_by_different_version`.  The `self.db.…` and
`utils.…` collaborators (none of which are in `modules/flowalerts/conn.py`)
are supplied as an environment of oracle functions; the in-memory pending
list `connections_checked_in_conn_dns_timer_thread` is explicit state. -/

/-- `self.db.get_dns_resolution(ip)`: either a dict carrying a
`resolved-by` list, or a non-dict value (a list), on which `.get` raises
`AttributeError` (caught by the source and treated as no match). -/
inductive DnsRes where
  | obj (resolvedBy : List String)
  | malformed
deriving Repr, DecidableEq

/-- The external collaborators consulted by the check, as pure oracles. -/
structure CwdEnv where
  clientIps : List String
  inputIsZeekLogFile : Bool
  isIgnoredIp : String → Bool
  isDohServer : String → Bool
  isDnsServer : String → Bool
  /-- `"-i" in sys.argv or self.db.is_growing_zeek_dir()` -/
  interfaceOrGrowingZeek : Bool
  ourIps : List String
  /-- minutes elapsed since slips started -/
  minutesSinceStart : Nat
  /-- `self.db.is_ip_resolved(daddr, 24)` -/
  isIpResolved24h : String → Bool
  /-- `self.db.get_the_other_ip_version(profileid)` (`none` when falsy) -/
  otherIpVersion : String → Option String
  /-- `self.db.get_dns_resolution(daddr)` -/
  dnsResolution : String → DnsRes
  /-- `self.is_well_known_org(daddr)` -/
  isWellKnownOrgOf : String → Bool

/-- `should_ignore_conn_without_dns` (conn.py:383). -/
def should_ignore_conn_without_dns (env : CwdEnv)
    (flow_type appproto daddr : String) : Bool :=
  decide (flow_type ≠ "conn") ||
    decide (appproto = "dns") || decide (appproto = "icmp") ||
    env.isIgnoredIp daddr ||
    env.clientIps.contains daddr ||
    env.inputIsZeekLogFile ||
    env.isDohServer daddr ||
    env.isDnsServer daddr

/-- `check_if_resolution_was_made_by_different_version` (conn.py:406). -/
def check_if_resolution_was_made_by_different_version (env : CwdEnv)
    (profileid daddr : String) : Bool :=
  match env.otherIpVersion profileid, env.dnsResolution daddr with
  | some other, DnsRes.obj rb => rb.contains other
  | _, _ => false

/-- Outcome of one call of `check_connection_without_dns_resolution`:
the Python return value (`none` = fell through / returned `None`,
`some false` = returned `False`), the pending list afterwards, the emitted
evidence (daddr, uid) if any, and whether a deferred timer was started. -/
structure CwdResult where
  retval : Option Bool
  pending : List String
  evidence : Option (String × String)
  timerStarted : Bool
deriving Repr, DecidableEq

/-- The tail of `check_connection_without_dns_resolution` after the
interface warm-up block (conn.py:466-517). -/
def cwdAfterWarmup (env : CwdEnv) (pending : List String)
    (daddr profileid uid : String) : CwdResult :=
  if env.isIpResolved24h daddr then
    ⟨some false, pending, none, false⟩
  else if ¬ (pending.contains uid) then
    -- first sighting: register the uid and start the 15-second timer
    ⟨none, pending ++ [uid], none, true⟩
  else if check_if_resolution_was_made_by_different_version env profileid daddr then
    ⟨some false, pending, none, false⟩
  else if env.isWellKnownOrgOf daddr then
    ⟨some false, pending, none, false⟩
  else
    -- set_evidence.conn_without_dns, then remove uid (suppress ValueError)
    ⟨none, pending.erase uid, some (daddr, uid), false⟩

/-- `check_connection_without_dns_resolution` (conn.py:427). -/
def check_connection_without_dns_resolution (env : CwdEnv)
    (pending : List String) (flow_type appproto daddr profileid uid : String) :
    CwdResult :=
  if should_ignore_conn_without_dns env flow_type appproto daddr then
    ⟨none, pending, none, false⟩
  else if env.interfaceOrGrowingZeek then
    if ¬ (env.ourIps.contains (pyLastSplit profileid)) then
      ⟨some false, pending, none, false⟩
    else if env.minutesSinceStart < 30 then
      ⟨some false, pending, none, false⟩
    else cwdAfterWarmup env pending daddr profileid uid
  else cwdAfterWarmup env pending daddr profileid uid

/-! ## Device changing IPs (conn.py:309-359)

`check_device_changing_ips`.  The `validators.ipv4` and
`utils.is_private_ip` library predicates (not part of this repository's
source tree) and the store accessors are oracle parameters. -/

/-- Outcome of `check_device_changing_ips`: whether the source IP was newly
marked as seen in the conn log, and the evidence (smac, old_ip) if any. -/
structure DevResult where
  markedSeen : Option String
  evidence : Option (String × String)
deriving Repr, DecidableEq

/-- The oracles used by `check_device_changing_ips`. -/
structure DevEnv where
  /-- `validators.ipv4(s)` -/
  ipv4 : String → Bool
  /-- `utils.is_private_ip(ipaddress.ip_address(s))` -/
  privateIp : String → Bool
  /-- `self.db.was_ip_seen_in_connlog_before(saddr)` -/
  wasSeenBefore : String → Bool
  /-- `self.db.get_ip_of_mac(smac)`, decoded (`none` when falsy) -/
  ipsOfMac : String → Option (List String)

/-- `check_device_changing_ips` (conn.py:309). -/
def check_device_changing_ips (env : DevEnv)
    (flow_type smac profileid : String) : DevResult :=
  if ¬ pyContains flow_type "conn" then
    ⟨none, none⟩
  else if smac = "" then
    ⟨none, none⟩
  else
    let saddr := pyLastSplit profileid
    if ¬ (env.ipv4 saddr && env.privateIp saddr) then
      ⟨none, none⟩
    else if env.wasSeenBefore saddr then
      ⟨none, none⟩
    else
      -- mark_srcip_as_seen_in_connlog(saddr)
      match env.ipsOfMac smac with
      | none => ⟨some saddr, none⟩
      | some old_ip_list =>
        -- first IPv4 in the list; for-else: all IPv6 means return
        match old_ip_list.find? env.ipv4 with
        | none => ⟨some saddr, none⟩
        | some old_ip =>
          if old_ip ≠ saddr then ⟨some saddr, some (smac, old_ip)⟩
          else ⟨some saddr, none⟩

/-- The condition under which the C6 claim says evidence is emitted,
following the claim's words: flow type is exactly `"conn"`, smac present,
source IP a private IPv4 not seen before, and the store binds the MAC to a
*different private* IPv4. -/
def device_changing_ips_claimed (env : DevEnv)
    (flow_type smac profileid : String) : Prop :=
  flow_type = "conn" ∧ smac ≠ "" ∧
    env.ipv4 (pyLastSplit profileid) = true ∧
    env.privateIp (pyLastSplit profileid) = true ∧
    env.wasSeenBefore (pyLastSplit profileid) = false ∧
    ∃ l, env.ipsOfMac smac = some l ∧
      ∃ ip ∈ l, env.ipv4 ip = true ∧ env.privateIp ip = true ∧
        ip ≠ pyLastSplit profileid

/-! ## Connection to multiple ports (conn.py:556-650)

`detect_connection_to_multiple_ports`.  The per-profile aggregates returned
by `get_data_from_profile_tw` are tables keyed by IP; a key that is absent
and indexed without a membership check raises `KeyError`, modelled with
`Except`. -/

structure PortAggregate where
  dstports : List Nat
  uid : List String
deriving Repr, DecidableEq

structure MultiPortEvidence where
  uids : List String
  dstports : List Nat
  victim : String
  attacker : String
deriving Repr, DecidableEq

/-- Python truthiness of an optional string (`None` and `""` are falsy). -/
def pyTruthyStr (o : Option String) : Bool :=
  match o with
  | some s => decide (s ≠ "")
  | none => false

/-- `detect_connection_to_multiple_ports` (conn.py:556).  `clientTable` is
the aggregate for direction `Dst`/role `Client`, `serverTable` for
direction `Src`/role `Server`.  An uncaught `KeyError` is `Except.error`. -/
def detect_connection_to_multiple_ports
    (getPortInfo : String → Option String)
    (clientTable serverTable : Table PortAggregate)
    (saddr daddr proto state appproto : String) (dport : Nat)
    (profileid : String) : Except String (Option MultiPortEvidence) :=
  if proto ≠ "tcp" ∨ state ≠ "Established" then .ok none
  else
    let dport_name :=
      if appproto ≠ "" then some appproto
      else getPortInfo (toString dport ++ "/" ++ proto)
    if pyTruthyStr dport_name then .ok none
    else if pySecondSplit profileid = saddr then
      match tblLookup clientTable daddr with
      | none => .ok none                  -- `if daddr not in daddrs: return`
      | some entry =>
        if entry.dstports.length ≤ 1 then .ok none
        else .ok (some ⟨entry.uid, entry.dstports, daddr, pyLastSplit profileid⟩)
    else if pyLastSplit profileid = daddr then
      match tblLookup serverTable saddr with
      | none => .error "KeyError"         -- `saddrs[saddr]` without a check
      | some entry =>
        if entry.dstports.length ≤ 1 then .ok none
        else .ok (some ⟨entry.uid, entry.dstports, pyLastSplit profileid, daddr⟩)
    else .ok none

/-! ## Well-known organizations (conn.py:681-722)

`is_well_known_org`.  The organization membership oracles live in the
whitelist collaborator; `utils.supported_orgs` is a module-level constant
outside this source tree. -/

/-- Modelled from the spec: `utils.supported_orgs`, the constant list of
well-known organizations ("apple, fb, google, etc.", "fb, twitter,
microsoft, etc."); only its being a fixed non-empty list matters here. -/
def supported_orgs : List String :=
  ["google", "microsoft", "apple", "facebook", "twitter"]

/-- The whitelist organization-membership oracles. -/
structure OrgOracle where
  /-- `is_ip_asn_in_org_asn(ip, org)` -/
  asnInOrg : String → String → Bool
  /-- `is_domain_in_org(domain, org)` -/
  domainInOrg : String → String → Bool
  /-- `is_ip_in_org(ip, org)` -/
  ipInOrg : String → String → Bool

/-- Body of the inner `for domain in flow_domains` loop for one org:
any of the three checks returning True returns from the function. -/
def orgDomainCheck (o : OrgOracle) (ip org : String) (domain : Option String) :
    Bool :=
  o.asnInOrg ip org ||
    (match domain with
     | some d => o.domainInOrg d org
     | none => false) ||
    o.ipInOrg ip org

/-- `is_well_known_org` (conn.py:681).  `rdns` and `sni` are the values
extracted from `get_ip_info` (`none` when absent/falsy).  The
`return False` at the end of the inner loop body sits inside the outer
`for org` loop, so only the first organization is ever consulted. -/
def is_well_known_org (o : OrgOracle) (ip : String)
    (rdns sni : Option String) : Bool :=
  match supported_orgs with
  | [] => false
  | org :: _ => [rdns, sni].any (orgDomainCheck o ip org)

/-! ## DNS analyzer: `detect_dga` and `check_invalid_dns_answers`

The DNS analyzer module (`modules/flowalerts/dns.py`) is not part of the
source tree here — only its unit tests are — so these two checks are
modelled from the spec. -/

abbrev NxState := Table (List String × List String)

/-- Modelled from the spec: `detect_dga` — "skip ARPA/local queries and
whitelisted domains; on `rcode == NXDOMAIN`, append `(domain, uid)` to
`NXDomainCounter[(profile,timewindow)]`; once the accumulated count reaches
a threshold (default 10), emit evidence carrying all accumulated uids and
reset the counter to empty.  Below threshold, no evidence."  Emitted
evidence is `(count, uids)`. -/
def detect_dga (whitelisted : String → Bool) (threshold : Nat) (nx : NxState)
    (rcode query uid profileid twid : String) :
    Option (Nat × List String) × NxState :=
  if whitelisted query then (none, nx)
  else if rcode ≠ "NXDOMAIN" then (none, nx)
  else if pyEndsWith query ".arpa" then (none, nx)
  else if pyEndsWith query ".local" then (none, nx)
  else
    let key := profileid ++ "_" ++ twid
    let (queries, uids) := (tblLookup nx key).getD ([], [])
    let queries' := queries ++ [query]
    let uids' := uids ++ [uid]
    if threshold ≤ queries'.length then
      (some (queries'.length, uids'), tblSet nx key ([], []))
    else
      (none, tblSet nx key (queries', uids'))

/-- A query that `detect_dga` counts: not whitelisted, not an ARPA domain,
not a `.local` domain. -/
def dgaEligible (whitelisted : String → Bool) (q : String) : Prop :=
  whitelisted q = false ∧ pyEndsWith q ".arpa" = false ∧
    pyEndsWith q ".local" = false

/-- Process a sequence of `(query, uid)` NXDOMAIN transactions for one
profile/timewindow, collecting each call's evidence. -/
def runDGA (whitelisted : String → Bool) (threshold : Nat) (nx : NxState)
    (profileid twid : String) :
    List (String × String) → List (Option (Nat × List String)) × NxState
  | [] => ([], nx)
  | (q, u) :: rest =>
    let (ev, nx') := detect_dga whitelisted threshold nx "NXDOMAIN" q u profileid twid
    let (evs, nxFinal) := runDGA whitelisted threshold nx' profileid twid rest
    (ev :: evs, nxFinal)

/-- Modelled from the spec: the loopback/invalid addresses that make a DNS
answer evidence-worthy (`127.0.0.1` is the loopback used by the tests). -/
def invalid_answers : List String := ["127.0.0.1", "0.0.0.0"]

/-- Observable actions of `check_invalid_dns_answers`. -/
inductive DnsAction where
  | evidence (domain answer : String)
  | deleteResolution (answer : String)
deriving Repr, DecidableEq

/-- Modelled from the spec: `check_invalid_dns_answers` — "any answer that
is a loopback/invalid address (except when the query itself is 'localhost')
is evidence-worthy and also triggers removal of that cached resolution from
the external store". -/
def check_invalid_dns_answers (domain : String) :
    List String → List DnsAction
  | [] => []
  | ans :: rest =>
    if ans ∈ invalid_answers ∧ domain ≠ "localhost" then
      DnsAction.evidence domain ans :: DnsAction.deleteResolution ans ::
        check_invalid_dns_answers domain rest
    else check_invalid_dns_answers domain rest

/-! ## Concrete environments used by counterexamples and witnesses -/

/-- Nothing ignored, live-capture gate off, no cached resolution, but the
profile's other-IP-version address made the resolution for every daddr. -/
def cwdEnvResolvedByOther : CwdEnv :=
  ⟨[], false, fun _ => false, fun _ => false, fun _ => false, false, [], 0,
   fun _ => false, fun _ => some "fe80::1", fun _ => DnsRes.obj ["fe80::1"],
   fun _ => false⟩

/-- Nothing ignored, live-capture gate off, and nothing ever resolves. -/
def cwdEnvUnresolved : CwdEnv :=
  ⟨[], false, fun _ => false, fun _ => false, fun _ => false, false, [], 0,
   fun _ => false, fun _ => none, fun _ => DnsRes.malformed, fun _ => false⟩

/-- Nothing ignored, live-capture gate off, and every daddr has a cached
DNS resolution within the last 24 hours. -/
def cwdEnvCachedResolution : CwdEnv :=
  ⟨[], false, fun _ => false, fun _ => false, fun _ => false, false, [], 0,
   fun _ => true, fun _ => none, fun _ => DnsRes.malformed, fun _ => false⟩

/-- Device environment where the MAC is bound to the public IPv4 `8.8.8.8`:
only `8.8.8.8` and `192.168.1.5` parse as IPv4, only `192.168.1.5` is
private, no source IP was seen before. -/
def devEnvPublicOld : DevEnv :=
  ⟨fun s => decide (s = "8.8.8.8" ∨ s = "192.168.1.5"),
   fun s => decide (s = "192.168.1.5"),
   fun _ => false,
   fun _ => some ["8.8.8.8"]⟩

/-- Device environment where the MAC is bound to the private IPv4
`10.0.0.9`, different from the private source `192.168.1.5`. -/
def devEnvPrivateOld : DevEnv :=
  ⟨fun s => decide (s = "10.0.0.9" ∨ s = "192.168.1.5"),
   fun s => decide (s = "10.0.0.9" ∨ s = "192.168.1.5"),
   fun _ => false,
   fun _ => some ["10.0.0.9"]⟩

/-- Organization oracle: every IP is in Microsoft's range and nothing else
matches. -/
def msOnlyOracle : OrgOracle :=
  ⟨fun _ _ => false, fun _ _ => false, fun _ org => org == "microsoft"⟩

end Slips

namespace Slips

/-! ## Theorems -/

/-! ### Association-table lemmas -/

/-- The keys of a table, in insertion order. -/
def tblKeys {α : Type} (t : Table α) : List String := t.map Prod.fst

theorem beq_false_of_ne {α : Type} [BEq α] [LawfulBEq α] {a b : α} (h : a ≠ b) :
    (a == b) = false := by
  rcases hb : a == b with _ | _
  · rfl
  · exact absurd (eq_of_beq hb) h

theorem tblLookup_set_self {α : Type} (t : Table α) (k : String) (v : α) :
    tblLookup (tblSet t k v) k = some v := by
  induction t with
  | nil => simp [tblSet, tblLookup]
  | cons p rest ih =>
    obtain ⟨k', w⟩ := p
    by_cases h : k' = k <;> simp [tblSet, tblLookup, h, ih]

theorem tblLookup_set_ne {α : Type} (t : Table α) (k k' : String) (v : α)
    (h : k' ≠ k) : tblLookup (tblSet t k v) k' = tblLookup t k' := by
  have h' : k ≠ k' := Ne.symm h
  induction t with
  | nil => simp [tblSet, tblLookup, h']
  | cons p rest ih =>
    obtain ⟨k₀, w⟩ := p
    by_cases h0 : k₀ = k
    · subst h0
      simp [tblSet, tblLookup, h']
    · simp only [tblSet, if_neg h0]
      by_cases h1 : k₀ = k' <;> simp [tblLookup, h1, ih]

theorem tblKeys_set {α : Type} (t : Table α) (k : String) (v : α) :
    tblKeys (tblSet t k v) =
      if (tblKeys t).contains k then tblKeys t else tblKeys t ++ [k] := by
  induction t with
  | nil => simp [tblSet, tblKeys]
  | cons p rest ih =>
    obtain ⟨k₀, w⟩ := p
    by_cases h0 : k₀ = k
    · subst h0
      simp [tblSet, tblKeys, List.contains_cons]
    · have hbeq : (k == k₀) = false := beq_false_of_ne (Ne.symm h0)
      simp only [tblSet, if_neg h0, tblKeys, List.map_cons, List.contains_cons, hbeq,
        Bool.false_or]
      rw [show (tblSet rest k v).map Prod.fst = tblKeys (tblSet rest k v) from rfl, ih]
      simp only [tblKeys]
      by_cases hc : (List.map Prod.fst rest).contains k
      · rw [if_pos hc, if_pos hc]
      · rw [if_neg hc, if_neg hc]
        simp

theorem tblLookup_eq_none_iff {α : Type} (t : Table α) (k : String) :
    tblLookup t k = none ↔ (tblKeys t).contains k = false := by
  induction t with
  | nil => simp [tblLookup, tblKeys]
  | cons p rest ih =>
    obtain ⟨k₀, w⟩ := p
    by_cases h0 : k₀ = k
    · subst h0
      simp [tblLookup, tblKeys, List.contains_cons]
    · have hbeq : (k == k₀) = false := beq_false_of_ne (Ne.symm h0)
      simp [tblLookup, tblKeys, List.contains_cons, h0, hbeq, ih]

theorem tblLength_eq_keys_length {α : Type} (t : Table α) :
    t.length = (tblKeys t).length := by
  simp [tblKeys]

/-! ### P2P history lemmas -/

theorem seenDaddrsAux_append (ks : List String) (l₁ l₂ : List P2PConn) :
    seenDaddrsAux ks (l₁ ++ l₂) = seenDaddrsAux (seenDaddrsAux ks l₁) l₂ := by
  induction l₁ generalizing ks with
  | nil => simp [seenDaddrsAux]
  | cons c cs ih => simp [seenDaddrsAux, ih]

theorem seenDaddrs_snoc (hist : List P2PConn) (c : P2PConn) :
    seenDaddrs (hist ++ [c]) =
      if eligibleP2P c && !((seenDaddrs hist).contains c.daddr) then
        seenDaddrs hist ++ [c.daddr]
      else seenDaddrs hist := by
  simp only [seenDaddrs, seenDaddrsAux_append, seenDaddrsAux]

theorem hitCount_snoc (hist : List P2PConn) (c : P2PConn) (d : String) :
    hitCount (hist ++ [c]) d =
      hitCount hist d + (if eligibleP2P c && c.daddr == d then 1 else 0) := by
  simp only [hitCount, List.filter_append, List.length_append, List.filter]
  by_cases h : eligibleP2P c && c.daddr == d <;> simp [h]

theorem list_contains_iff {α : Type} [BEq α] [LawfulBEq α] (l : List α) (a : α) :
    l.contains a = true ↔ a ∈ l := List.elem_iff

theorem mem_of_contains_true {α : Type} [BEq α] [LawfulBEq α] {l : List α} {a : α}
    (h : l.contains a = true) : a ∈ l := (list_contains_iff l a).mp h

theorem not_mem_of_contains_false {α : Type} [BEq α] [LawfulBEq α] {l : List α}
    {a : α} (h : l.contains a = false) : a ∉ l :=
  fun hm => by rw [(list_contains_iff l a).mpr hm] at h; cases h

theorem bool_ne_true {b : Bool} (h : b = false) : ¬ (b = true) := by
  rw [h]; simp

theorem contains_append {α : Type} [BEq α] (l₁ l₂ : List α) (a : α) :
    (l₁ ++ l₂).contains a = (l₁.contains a || l₂.contains a) := by
  induction l₁ with
  | nil => simp
  | cons b bs ih => simp [List.contains_cons, ih, Bool.or_assoc]

theorem seenDaddrsAux_mem (l : List P2PConn) (ks : List String) (d : String) :
    d ∈ seenDaddrsAux ks l ↔
      d ∈ ks ∨ ∃ x ∈ l, eligibleP2P x = true ∧ x.daddr = d := by
  induction l generalizing ks with
  | nil => simp [seenDaddrsAux]
  | cons c cs ih =>
    simp only [seenDaddrsAux, ih, List.exists_mem_cons_iff]
    by_cases he : eligibleP2P c = true
    · by_cases hk : ks.contains c.daddr = true
      · have hmem : c.daddr ∈ ks := (list_contains_iff ks c.daddr).mp hk
        rw [if_neg (by simp [he, hmem])]
        constructor
        · rintro (h | h)
          · exact Or.inl h
          · exact Or.inr (Or.inr h)
        · rintro (h | ⟨_, hd⟩ | h)
          · exact Or.inl h
          · exact Or.inl (hd ▸ hmem)
          · exact Or.inr h
      · have hmem : c.daddr ∉ ks :=
          fun hm => hk ((list_contains_iff ks c.daddr).mpr hm)
        rw [if_pos (by simp [he, hmem])]
        simp only [List.mem_append, List.mem_singleton]
        constructor
        · rintro ((h | rfl) | h)
          · exact Or.inl h
          · exact Or.inr (Or.inl ⟨he, rfl⟩)
          · exact Or.inr (Or.inr h)
        · rintro (h | ⟨_, hd⟩ | h)
          · exact Or.inl (Or.inl h)
          · exact Or.inl (Or.inr hd.symm)
          · exact Or.inr h
    · have hb : eligibleP2P c = false := by simpa using he
      rw [if_neg (by simp [hb])]
      constructor
      · rintro (h | h)
        · exact Or.inl h
        · exact Or.inr (Or.inr h)
      · rintro (h | ⟨he', _⟩ | h)
        · exact Or.inl h
        · exact absurd he' (by simp [hb])
        · exact Or.inr h

theorem hitCount_eq_zero_of_not_seen (hist : List P2PConn) (d : String)
    (h : (seenDaddrs hist).contains d = false) : hitCount hist d = 0 := by
  have hnot : ¬ ∃ x ∈ hist, eligibleP2P x = true ∧ x.daddr = d := by
    intro hex
    have hmem : d ∈ seenDaddrs hist := by
      rw [seenDaddrs, seenDaddrsAux_mem]
      exact Or.inr hex
    rw [(list_contains_iff _ _).mpr hmem] at h
    cases h
  rw [hitCount, List.length_eq_zero, List.filter_eq_nil_iff]
  intro c hc hpc
  simp only [Bool.and_eq_true, beq_iff_eq] at hpc
  exact hnot ⟨c, hc, hpc.1, hpc.2⟩

/-- The invariant tying the `p2p_daddrs` dict to the history already
processed: its keys are the distinct eligible destinations in first-seen
order, and each stored count is the number of eligible connections to that
destination, saturated at 6 (the early return skips the increment). -/
def P2PInv (hist : List P2PConn) (st : P2PState) : Prop :=
  tblKeys st = seenDaddrs hist ∧
  ∀ d, tblLookup st d =
    if (seenDaddrs hist).contains d then some (min (hitCount hist d) 6) else none

theorem p2p_inv_nil : P2PInv [] [] := by
  constructor
  · simp [tblKeys, seenDaddrs, seenDaddrsAux]
  · intro d
    simp [tblLookup, seenDaddrs, seenDaddrsAux]

theorem p2p_step (hist : List P2PConn) (st : P2PState) (c : P2PConn)
    (h : P2PInv hist st) :
    (is_p2p st c.dport c.proto c.daddr).1 = p2pExpected hist c ∧
    P2PInv (hist ++ [c]) (is_p2p st c.dport c.proto c.daddr).2 := by
  obtain ⟨hkeys, hlook⟩ := h
  by_cases helig : eligibleP2P c
  · have hcond : pyLower c.proto = "udp" ∧ 30000 < c.dport := by
      simpa [eligibleP2P] using helig
    cases hfound : tblLookup st c.daddr with
    | none =>
      have hcont : (seenDaddrs hist).contains c.daddr = false := by
        have := hlook c.daddr
        rw [hfound] at this
        by_cases hc : (seenDaddrs hist).contains c.daddr
        · rw [if_pos hc] at this; cases this
        · simpa using hc
      have hhit : hitCount hist c.daddr = 0 :=
        hitCount_eq_zero_of_not_seen hist c.daddr hcont
      have hseen : seenDaddrs (hist ++ [c]) = seenDaddrs hist ++ [c.daddr] := by
        rw [seenDaddrs_snoc]
        simp [helig, not_mem_of_contains_false hcont]
      have hkeys' : tblKeys (tblSet st c.daddr 1) = seenDaddrs hist ++ [c.daddr] := by
        rw [tblKeys_set, hkeys, if_neg (bool_ne_true hcont)]
      refine ⟨?_, ?_, ?_⟩
      · simp only [is_p2p, if_pos hcond, hfound, p2pExpected, helig, Bool.true_and]
        have hlen : (tblSet st c.daddr 1).length = (seenDaddrs (hist ++ [c])).length := by
          rw [tblLength_eq_keys_length, hkeys', hseen]
        rw [hlen]
        simp [hhit]
      · simp only [is_p2p, if_pos hcond, hfound]
        rw [hkeys', hseen]
      · intro d
        simp only [is_p2p, if_pos hcond, hfound]
        by_cases hd : d = c.daddr
        · subst hd
          rw [tblLookup_set_self, hseen, hitCount_snoc, hhit]
          simp [helig]
        · rw [tblLookup_set_ne st c.daddr d 1 hd, hlook d, hseen, hitCount_snoc]
          have hne : (c.daddr == d) = false := beq_false_of_ne (fun hh => hd hh.symm)
          have hne' : (d == c.daddr) = false := beq_false_of_ne hd
          simp [hne, hne', contains_append, hd]
    | some cnt =>
      have hcont : (seenDaddrs hist).contains c.daddr = true := by
        have := hlook c.daddr
        rw [hfound] at this
        by_cases hc : (seenDaddrs hist).contains c.daddr
        · exact hc
        · rw [if_neg hc] at this; cases this
      have hcnt : cnt = min (hitCount hist c.daddr) 6 := by
        have := hlook c.daddr
        rw [hfound, if_pos hcont] at this
        exact Option.some.inj this
      have hseen : seenDaddrs (hist ++ [c]) = seenDaddrs hist := by
        rw [seenDaddrs_snoc]
        simp [mem_of_contains_true hcont]
      by_cases h6 : 6 ≤ cnt
      · have hhit6 : 6 ≤ hitCount hist c.daddr := by
          rw [hcnt] at h6; omega
        refine ⟨?_, ?_, ?_⟩
        · simp only [is_p2p, if_pos hcond, hfound, if_pos h6, p2pExpected, helig,
            Bool.true_and]
          simp [hhit6]
        · simp only [is_p2p, if_pos hcond, hfound, if_pos h6]
          rw [hkeys, hseen]
        · intro d
          simp only [is_p2p, if_pos hcond, hfound, if_pos h6]
          rw [hlook d, hseen, hitCount_snoc]
          by_cases hd : d = c.daddr
          · subst hd
            rw [if_pos hcont, if_pos hcont]
            have : (c.daddr == c.daddr) = true := by simp
            simp only [helig, this, Bool.and_self, if_pos, Bool.true_and, if_true]
            congr 1
            omega
          · have hne : (c.daddr == d) = false := beq_false_of_ne (fun hh => hd hh.symm)
            simp [hne]
      · have hhit : hitCount hist c.daddr = cnt := by omega
        have hkeys' : tblKeys (tblSet st c.daddr (cnt + 1)) = seenDaddrs hist := by
          rw [tblKeys_set, hkeys, if_pos hcont]
        refine ⟨?_, ?_, ?_⟩
        · simp only [is_p2p, if_pos hcond, hfound, if_neg h6, p2pExpected, helig,
            Bool.true_and]
          have hlen : (tblSet st c.daddr (cnt + 1)).length =
              (seenDaddrs (hist ++ [c])).length := by
            rw [tblLength_eq_keys_length, hkeys', hseen]
          rw [hlen]
          have : ¬ 6 ≤ hitCount hist c.daddr := by omega
          simp [this]
        · simp only [is_p2p, if_pos hcond, hfound, if_neg h6]
          rw [hkeys', hseen]
        · intro d
          simp only [is_p2p, if_pos hcond, hfound, if_neg h6]
          rw [hseen, hitCount_snoc]
          by_cases hd : d = c.daddr
          · subst hd
            rw [tblLookup_set_self, if_pos hcont]
            have hbeq : (c.daddr == c.daddr) = true := by simp
            simp only [helig, hbeq, Bool.and_self, if_true]
            congr 1
            omega
          · rw [tblLookup_set_ne st c.daddr d (cnt + 1) hd, hlook d]
            have hne : (c.daddr == d) = false := beq_false_of_ne (fun hh => hd hh.symm)
            simp [hne]
  · have hb : eligibleP2P c = false := by
      cases hbe : eligibleP2P c
      · rfl
      · exact absurd hbe helig
    have hcond : ¬ (pyLower c.proto = "udp" ∧ 30000 < c.dport) := by
      intro hc
      refine helig ?_
      simp only [eligibleP2P]
      simp [hc.1, hc.2]
    refine ⟨?_, ?_, ?_⟩
    · simp [is_p2p, hcond, p2pExpected, hb]
    · rw [show (is_p2p st c.dport c.proto c.daddr).2 = st by simp [is_p2p, hcond]]
      rw [hkeys, seenDaddrs_snoc, hb]
      simp
    · intro d
      rw [show (is_p2p st c.dport c.proto c.daddr).2 = st by simp [is_p2p, hcond]]
      rw [hlook d, seenDaddrs_snoc, hitCount_snoc, hb]
      simp

theorem p2pRun_getElem (pre : List P2PConn) (c : P2PConn) (post : List P2PConn)
    (hist : List P2PConn) (st : P2PState) (h : P2PInv hist st) :
    (p2pRun st (pre ++ c :: post))[pre.length]? =
      some (p2pExpected (hist ++ pre) c) := by
  induction pre generalizing hist st with
  | nil =>
    obtain ⟨h1, h2⟩ := p2p_step hist st c h
    simp only [List.nil_append, p2pRun, List.length_nil]
    simp [h1]
  | cons p pre' ih =>
    obtain ⟨_, h2⟩ := p2p_step hist st p h
    simp only [List.cons_append, p2pRun, List.length_cons]
    rw [List.getElem?_cons_succ]
    have := ih (hist ++ [p]) _ h2
    simpa [List.append_assoc] using this

/-- C1 (code evaluated at the failing input): five REJ flows with identical
`saddr`/`daddr`/`dport` and distinct uids, processed against an external
store that starts with an empty reconnection table, produce **no** evidence
at all — including the fifth flow — and leave the store empty, because the
below-threshold increments are never written back via `setReconnections`. -/
theorem reconn_five_rej_flows_no_evidence :
    runReconn []
      [⟨"REJ", "192.168.1.5", "8.8.8.8", 80, "u1"⟩,
       ⟨"REJ", "192.168.1.5", "8.8.8.8", 80, "u2"⟩,
       ⟨"REJ", "192.168.1.5", "8.8.8.8", 80, "u3"⟩,
       ⟨"REJ", "192.168.1.5", "8.8.8.8", 80, "u4"⟩,
       ⟨"REJ", "192.168.1.5", "8.8.8.8", 80, "u5"⟩] =
    ([none, none, none, none, none], []) := by
  decide

/-- C10: `check_multiple_reconnection_attempts` writes the reconnection table
back to the external store only on the call where the incremented count
reaches 5 (the threshold fires and the key is reset); a REJ flow below the
threshold leaves the external store unchanged, and a non-REJ flow neither
reads nor writes the store. -/
theorem reconn_store_frame (store : ReconnTable)
    (origstate saddr daddr : String) (dport : Nat) (uid : String) :
    let r := check_multiple_reconnection_attempts store origstate saddr daddr dport uid
    (origstate ≠ "REJ" →
      r.readStore = false ∧ r.wroteStore = false ∧ r.store = store) ∧
    (origstate = "REJ" →
      (r.wroteStore = true ↔ 5 ≤ newReconnCount store (reconnKey saddr daddr dport)) ∧
      (newReconnCount store (reconnKey saddr daddr dport) < 5 →
        r.store = store ∧ r.evidence = none ∧ r.wroteStore = false)) := by
  constructor
  · intro h
    simp [check_multiple_reconnection_attempts, h]
  · intro h
    subst h
    simp only [check_multiple_reconnection_attempts, newReconnCount]
    cases hl : tblLookup store (reconnKey saddr daddr dport) with
    | none =>
      simp [hl]
    | some p =>
      obtain ⟨n, us⟩ := p
      by_cases h5 : n + 1 < 5 <;> simp [hl, h5] <;> omega

/-- Witness for `reconn_store_frame` at concrete inputs. -/
theorem reconn_store_frame_witness :
    ("Est" ≠ "REJ" ∧
      (check_multiple_reconnection_attempts [] "Est" "s" "d" 1 "u").store = []) ∧
    ("REJ" = "REJ" ∧
      (check_multiple_reconnection_attempts [] "REJ" "s" "d" 1 "u").wroteStore = false) := by
  refine ⟨⟨by decide, ?_⟩, ⟨rfl, ?_⟩⟩
  · exact ((reconn_store_frame [] "Est" "s" "d" 1 "u").1 (by decide)).2.2
  · exact (((reconn_store_frame [] "REJ" "s" "d" 1 "u").2 rfl).2 (by decide)).2.2

/-- C5: for every sequence of connections processed by `is_p2p` starting
from an empty `p2p_daddrs` counter, the connection at position
`pre.length` is classified as P2P exactly when it is UDP with dport above
30000 and either its destination already has 6 recorded hits
(`hitCount pre c.daddr ≥ 6`) or the set of distinct high-port-UDP
destinations seen, including this one, has reached 5; non-UDP or low-port
connections are never flagged (`p2pExpected` is `false` for them). -/
theorem is_p2p_threshold_characterization (cs pre post : List P2PConn)
    (c : P2PConn) (h : cs = pre ++ c :: post) :
    (p2pRun [] cs)[pre.length]? = some (p2pExpected pre c) := by
  subst h
  have := p2pRun_getElem pre c post [] [] p2p_inv_nil
  simpa using this

/-- Witness for `is_p2p_threshold_characterization`: the fifth distinct
high-port UDP destination is flagged, and a TCP connection is not. -/
theorem is_p2p_threshold_characterization_witness :
    (p2pRun []
      [⟨40000, "udp", "10.0.0.1"⟩, ⟨40000, "udp", "10.0.0.2"⟩,
       ⟨40000, "udp", "10.0.0.3"⟩, ⟨40000, "udp", "10.0.0.4"⟩,
       ⟨40000, "udp", "10.0.0.5"⟩, ⟨40000, "tcp", "10.0.0.6"⟩])[4]? =
      some true ∧
    (p2pRun []
      [⟨40000, "udp", "10.0.0.1"⟩, ⟨40000, "udp", "10.0.0.2"⟩,
       ⟨40000, "udp", "10.0.0.3"⟩, ⟨40000, "udp", "10.0.0.4"⟩,
       ⟨40000, "udp", "10.0.0.5"⟩, ⟨40000, "tcp", "10.0.0.6"⟩])[5]? =
      some false := by
  constructor
  · have h := is_p2p_threshold_characterization _
      [⟨40000, "udp", "10.0.0.1"⟩, ⟨40000, "udp", "10.0.0.2"⟩,
       ⟨40000, "udp", "10.0.0.3"⟩, ⟨40000, "udp", "10.0.0.4"⟩]
      [⟨40000, "tcp", "10.0.0.6"⟩] ⟨40000, "udp", "10.0.0.5"⟩ rfl
    simp only [List.cons_append, List.nil_append, List.length_cons,
      List.length_nil] at h
    norm_num at h
    rw [h]
    decide
  · have h := is_p2p_threshold_characterization _
      [⟨40000, "udp", "10.0.0.1"⟩, ⟨40000, "udp", "10.0.0.2"⟩,
       ⟨40000, "udp", "10.0.0.3"⟩, ⟨40000, "udp", "10.0.0.4"⟩,
       ⟨40000, "udp", "10.0.0.5"⟩] [] ⟨40000, "tcp", "10.0.0.6"⟩ rfl
    simp only [List.cons_append, List.nil_append, List.length_cons,
      List.length_nil] at h
    norm_num at h
    rw [h]
    decide

/-- Every path of the deferred-stage tail that resolves the condition
(cached resolution, other-IP-version match, or well-known-org match) emits
no evidence. -/
theorem cwdAfterWarmup_evidence_none (env : CwdEnv) (pending : List String)
    (daddr profileid uid : String)
    (hres : env.isIpResolved24h daddr = true ∨
      check_if_resolution_was_made_by_different_version env profileid daddr = true ∨
      env.isWellKnownOrgOf daddr = true) :
    (cwdAfterWarmup env pending daddr profileid uid).evidence = none := by
  rcases hres with h | h | h
  · simp [cwdAfterWarmup, h]
  · by_cases hr : env.isIpResolved24h daddr
    · simp [cwdAfterWarmup, hr]
    · by_cases hp : uid ∈ pending
      · simp [cwdAfterWarmup, hr, hp, h]
      · simp [cwdAfterWarmup, hr, hp]
  · by_cases hr : env.isIpResolved24h daddr
    · simp [cwdAfterWarmup, hr]
    · by_cases hp : uid ∈ pending
      · by_cases hdv : check_if_resolution_was_made_by_different_version env
            profileid daddr
        · simp [cwdAfterWarmup, hr, hp, hdv]
        · simp [cwdAfterWarmup, hr, hp, hdv, h]
      · simp [cwdAfterWarmup, hr, hp]

/-- C3: for a flow whose uid is already pending (the deferred re-check), if
a cached resolution now exists within 24 hours, or the other-IP-version
address made the resolution, or the destination matches a well-known
organization, then no `conn_without_dns` evidence is emitted. -/
theorem conn_without_dns_idempotent_exemption (env : CwdEnv)
    (pending : List String) (flow_type appproto daddr profileid uid : String)
    (hmem : uid ∈ pending)
    (hres : env.isIpResolved24h daddr = true ∨
      check_if_resolution_was_made_by_different_version env profileid daddr = true ∨
      env.isWellKnownOrgOf daddr = true) :
    (check_connection_without_dns_resolution env pending flow_type appproto
      daddr profileid uid).evidence = none := by
  by_cases h1 : should_ignore_conn_without_dns env flow_type appproto daddr
  · simp [check_connection_without_dns_resolution, h1]
  · by_cases h2 : env.interfaceOrGrowingZeek
    · by_cases h3 : pyLastSplit profileid ∈ env.ourIps
      · by_cases h4 : env.minutesSinceStart < 30
        · simp [check_connection_without_dns_resolution, h1, h2, h3, h4]
        · simpa [check_connection_without_dns_resolution, h1, h2, h3, h4]
            using cwdAfterWarmup_evidence_none env pending daddr profileid uid hres
      · simp [check_connection_without_dns_resolution, h1, h2, h3]
    · simpa [check_connection_without_dns_resolution, h1, h2]
        using cwdAfterWarmup_evidence_none env pending daddr profileid uid hres

/-- Witness for `conn_without_dns_idempotent_exemption`: a pending uid whose
destination was resolved by the other IP version produces no evidence. -/
theorem conn_without_dns_idempotent_exemption_witness :
    (check_connection_without_dns_resolution cwdEnvResolvedByOther ["uid1"]
      "conn" "" "8.8.8.8" "profile_192.168.1.5" "uid1").evidence = none :=
  conn_without_dns_idempotent_exemption cwdEnvResolvedByOther ["uid1"]
    "conn" "" "8.8.8.8" "profile_192.168.1.5" "uid1"
    (by decide) (Or.inr (Or.inl (by decide)))

/-- C2 counterexample: with uid1 pending, a deferred re-check that resolves
the condition (other-IP-version made the resolution) returns with the
pending list unchanged — the membership is *not* removed; the evidence path
does remove it; and after evidence a later invocation with the same uid is
evaluated again (a fresh timer is started), so the uid is not terminal. -/
theorem conn_without_dns_pending_counterexample :
    check_if_resolution_was_made_by_different_version cwdEnvResolvedByOther
        "profile_192.168.1.5" "8.8.8.8" = true ∧
    (check_connection_without_dns_resolution cwdEnvResolvedByOther ["uid1"]
        "conn" "" "8.8.8.8" "profile_192.168.1.5" "uid1").pending = ["uid1"] ∧
    (check_connection_without_dns_resolution cwdEnvUnresolved ["uid1"]
        "conn" "" "8.8.8.8" "profile_192.168.1.5" "uid1").evidence =
      some ("8.8.8.8", "uid1") ∧
    (check_connection_without_dns_resolution cwdEnvUnresolved ["uid1"]
        "conn" "" "8.8.8.8" "profile_192.168.1.5" "uid1").pending = [] ∧
    (check_connection_without_dns_resolution cwdEnvUnresolved []
        "conn" "" "8.8.8.8" "profile_192.168.1.5" "uid1").timerStarted = true := by
  refine ⟨?_, ?_, ?_, ?_, ?_⟩ <;> decide

/-- C2 (amended): membership in the pending list is removed only on the
evidence path.  On a deferred re-check that resolves the condition — a
cached resolution within 24 hours, an other-IP-version match, or a
well-known-org match — the uid stays in the pending list and no evidence
is emitted; when evidence fires the uid is erased (exactly once, when it
was registered once); and a uid that is not pending — in particular one
already erased by the evidence path — is registered again and a fresh
timer is started, so it is not terminal. -/
theorem conn_without_dns_pending_amended (env : CwdEnv)
    (pending : List String) (flow_type appproto daddr profileid uid : String)
    (h1 : should_ignore_conn_without_dns env flow_type appproto daddr = false)
    (h2 : env.interfaceOrGrowingZeek = false) :
    (env.isIpResolved24h daddr = true →
      (check_connection_without_dns_resolution env pending flow_type appproto
          daddr profileid uid).pending = pending ∧
        (check_connection_without_dns_resolution env pending flow_type appproto
          daddr profileid uid).evidence = none) ∧
    (env.isIpResolved24h daddr = false → uid ∈ pending →
      check_if_resolution_was_made_by_different_version env profileid daddr = true →
      (check_connection_without_dns_resolution env pending flow_type appproto
          daddr profileid uid).pending = pending ∧
        (check_connection_without_dns_resolution env pending flow_type appproto
          daddr profileid uid).evidence = none) ∧
    (env.isIpResolved24h daddr = false → uid ∈ pending →
      check_if_resolution_was_made_by_different_version env profileid daddr = false →
      env.isWellKnownOrgOf daddr = true →
      (check_connection_without_dns_resolution env pending flow_type appproto
          daddr profileid uid).pending = pending ∧
        (check_connection_without_dns_resolution env pending flow_type appproto
          daddr profileid uid).evidence = none) ∧
    (env.isIpResolved24h daddr = false → uid ∈ pending →
      check_if_resolution_was_made_by_different_version env profileid daddr = false →
      env.isWellKnownOrgOf daddr = false →
      (check_connection_without_dns_resolution env pending flow_type appproto
          daddr profileid uid).evidence = some (daddr, uid) ∧
        (check_connection_without_dns_resolution env pending flow_type appproto
          daddr profileid uid).pending = pending.erase uid ∧
        (pending.count uid = 1 →
          uid ∉ (check_connection_without_dns_resolution env pending flow_type
            appproto daddr profileid uid).pending)) ∧
    (env.isIpResolved24h daddr = false → uid ∉ pending →
      (check_connection_without_dns_resolution env pending flow_type appproto
          daddr profileid uid).timerStarted = true ∧
        (check_connection_without_dns_resolution env pending flow_type appproto
          daddr profileid uid).pending = pending ++ [uid]) := by
  have hig : ¬ (should_ignore_conn_without_dns env flow_type appproto daddr = true) :=
    bool_ne_true h1
  have hif : ¬ (env.interfaceOrGrowingZeek = true) := bool_ne_true h2
  refine ⟨?_, ?_, ?_, ?_, ?_⟩
  · intro hres
    constructor <;>
      simp [check_connection_without_dns_resolution, hig, hif, cwdAfterWarmup,
        hres]
  · intro h3 hmem hdv
    have hr : ¬ (env.isIpResolved24h daddr = true) := bool_ne_true h3
    constructor <;>
      simp [check_connection_without_dns_resolution, hig, hif, cwdAfterWarmup,
        hr, hmem, hdv]
  · intro h3 hmem hdv hwk
    have hr : ¬ (env.isIpResolved24h daddr = true) := bool_ne_true h3
    constructor <;>
      simp [check_connection_without_dns_resolution, hig, hif, cwdAfterWarmup,
        hr, hmem, hdv, hwk]
  · intro h3 hmem hdv hwk
    have hr : ¬ (env.isIpResolved24h daddr = true) := bool_ne_true h3
    refine ⟨?_, ?_, ?_⟩
    · simp [check_connection_without_dns_resolution, hig, hif, cwdAfterWarmup,
        hr, hmem, hdv, hwk]
    · simp [check_connection_without_dns_resolution, hig, hif, cwdAfterWarmup,
        hr, hmem, hdv, hwk]
    · intro hcount
      have hz : (pending.erase uid).count uid = 0 := by
        rw [List.count_erase_self, hcount]
      rw [List.count_eq_zero] at hz
      simp [check_connection_without_dns_resolution, hig, hif, cwdAfterWarmup,
        hr, hmem, hdv, hwk, hz]
  · intro h3 hnmem
    have hr : ¬ (env.isIpResolved24h daddr = true) := bool_ne_true h3
    constructor <;>
      simp [check_connection_without_dns_resolution, hig, hif, cwdAfterWarmup,
        hr, hnmem]

/-- Witness for `conn_without_dns_pending_amended` at concrete inputs: the
cached-resolution path and the other-IP-version path both keep the pending
list, and the fresh-uid path re-registers. -/
theorem conn_without_dns_pending_amended_witness :
    (check_connection_without_dns_resolution cwdEnvCachedResolution ["uid1"]
        "conn" "" "8.8.8.8" "profile_192.168.1.5" "uid1").pending = ["uid1"] ∧
    (check_connection_without_dns_resolution cwdEnvResolvedByOther ["uid1"]
        "conn" "" "8.8.8.8" "profile_192.168.1.5" "uid1").pending = ["uid1"] ∧
    (check_connection_without_dns_resolution cwdEnvUnresolved []
        "conn" "" "8.8.8.8" "profile_192.168.1.5" "uid1").pending = ["uid1"] := by
  refine ⟨?_, ?_, ?_⟩
  · exact ((conn_without_dns_pending_amended cwdEnvCachedResolution ["uid1"]
      "conn" "" "8.8.8.8" "profile_192.168.1.5" "uid1"
      (by decide) (by decide)).1 (by decide)).1
  · exact ((conn_without_dns_pending_amended cwdEnvResolvedByOther ["uid1"]
      "conn" "" "8.8.8.8" "profile_192.168.1.5" "uid1"
      (by decide) (by decide)).2.1 (by decide) (by decide) (by decide)).1
  · exact ((conn_without_dns_pending_amended cwdEnvUnresolved []
      "conn" "" "8.8.8.8" "profile_192.168.1.5" "uid1"
      (by decide) (by decide)).2.2.2.2 (by decide) (by decide)).2

/-- C6 counterexample: the claim is false as stated.  With the MAC bound to
the *public* IPv4 `8.8.8.8` (different from the private source
`192.168.1.5`), the code emits evidence although no *private* IPv4 binding
differs from the source; and with flow type `"fakeconn"` (which merely
*contains* `"conn"`) the code also emits evidence although the flow type is
not `"conn"`. -/
theorem device_changing_ips_counterexample :
    (check_device_changing_ips devEnvPublicOld "conn" "aa:bb"
        "profile_192.168.1.5").evidence = some ("aa:bb", "8.8.8.8") ∧
    ¬ device_changing_ips_claimed devEnvPublicOld "conn" "aa:bb"
        "profile_192.168.1.5" ∧
    (check_device_changing_ips devEnvPrivateOld "fakeconn" "aa:bb"
        "profile_192.168.1.5").evidence = some ("aa:bb", "10.0.0.9") ∧
    ("fakeconn" : String) ≠ "conn" := by
  refine ⟨by decide, ?_, by decide, by decide⟩
  rintro ⟨-, -, -, -, -, l, hl, ip, hip, hi4, hpriv, -⟩
  have hleq : l = ["8.8.8.8"] := by
    have := hl.symm
    simpa [devEnvPublicOld] using this
  subst hleq
  simp only [List.mem_singleton] at hip
  subst hip
  revert hpriv
  decide

/-- C6 (amended): `check_device_changing_ips` emits evidence exactly when
the flow type *contains* `"conn"`, the smac is present, the source IP from
the profile id is a private IPv4 not seen in the conn log before, the store
binds the MAC to a list containing at least one IPv4, and the *first* IPv4
in that list (private or not) differs from the source IP; every-IP-is-IPv6
bindings are skipped, and the seen marker is set exactly when the source IP
is a fresh private IPv4 on a conn-type flow with an smac. -/
theorem device_changing_ips_amended (env : DevEnv)
    (flow_type smac profileid : String) :
    ((check_device_changing_ips env flow_type smac profileid).evidence ≠ none ↔
      pyContains flow_type "conn" = true ∧ smac ≠ "" ∧
      env.ipv4 (pyLastSplit profileid) = true ∧
      env.privateIp (pyLastSplit profileid) = true ∧
      env.wasSeenBefore (pyLastSplit profileid) = false ∧
      ∃ l old_ip, env.ipsOfMac smac = some l ∧
        l.find? env.ipv4 = some old_ip ∧ old_ip ≠ pyLastSplit profileid) ∧
    ((check_device_changing_ips env flow_type smac profileid).markedSeen ≠ none ↔
      pyContains flow_type "conn" = true ∧ smac ≠ "" ∧
      env.ipv4 (pyLastSplit profileid) = true ∧
      env.privateIp (pyLastSplit profileid) = true ∧
      env.wasSeenBefore (pyLastSplit profileid) = false) := by
  by_cases hc : pyContains flow_type "conn" = true
  · by_cases hs : smac = ""
    · simp [check_device_changing_ips, hc, hs]
    · by_cases hi4 : env.ipv4 (pyLastSplit profileid) = true
      · by_cases hpr : env.privateIp (pyLastSplit profileid) = true
        · by_cases hseen : env.wasSeenBefore (pyLastSplit profileid) = true
          · simp [check_device_changing_ips, hc, hs, hi4, hpr, hseen]
          · have hseen' : env.wasSeenBefore (pyLastSplit profileid) = false := by
              rcases hb : env.wasSeenBefore (pyLastSplit profileid) with _ | _
              · rfl
              · exact absurd hb hseen
            cases hmac : env.ipsOfMac smac with
            | none => simp [check_device_changing_ips, hc, hs, hi4, hpr,
                hseen', hmac]
            | some l =>
              cases hfind : l.find? env.ipv4 with
              | none => simp [check_device_changing_ips, hc, hs, hi4, hpr,
                  hseen', hmac, hfind]
              | some old_ip =>
                by_cases hne : old_ip = pyLastSplit profileid
                · simp [check_device_changing_ips, hc, hs, hi4, hpr, hseen',
                    hmac, hfind, hne]
                · simp [check_device_changing_ips, hc, hs, hi4, hpr, hseen',
                    hmac, hfind, hne]
        · simp [check_device_changing_ips, hc, hs, hi4, hpr]
      · simp [check_device_changing_ips, hc, hs, hi4]
  · simp [check_device_changing_ips, hc]

/-- Witness for `device_changing_ips_amended`: a MAC bound to a different
IPv4 on a fresh private source triggers the evidence direction of the
equivalence. -/
theorem device_changing_ips_amended_witness :
    (check_device_changing_ips devEnvPrivateOld "conn" "aa:bb"
      "profile_192.168.1.5").evidence ≠ none :=
  ((device_changing_ips_amended devEnvPrivateOld "conn" "aa:bb"
      "profile_192.168.1.5").1).mpr
    ⟨by decide, by decide, by decide, by decide, by decide,
     ⟨["10.0.0.9"], "10.0.0.9", by decide, by decide, by decide⟩⟩

/-- C7: evaluated at the failing input.  A flow in the bidirectional
("server role") branch — `profileid` names the destination IP — whose
source IP is absent from the established-connections aggregate raises an
uncaught `KeyError` instead of degrading to no evidence; the sibling client
branch with the destination absent from its aggregate returns cleanly. -/
theorem multiple_ports_store_miss_keyerror :
    detect_connection_to_multiple_ports (fun _ => none) [] []
        "1.2.3.4" "5.6.7.8" "tcp" "Established" "" 8000 "profile_5.6.7.8" =
      Except.error "KeyError" ∧
    detect_connection_to_multiple_ports (fun _ => none) [] []
        "5.6.7.8" "9.9.9.9" "tcp" "Established" "" 8000 "profile_5.6.7.8" =
      Except.ok none := by
  constructor <;> rfl

/-- C9: `is_well_known_org` consults only the first organization of
`supported_orgs` ("google"): whenever neither the ASN check, the
rDNS/SNI-domain check, nor the IP-range check matches that first
organization, it returns `false` — even for an IP that belongs to a later
organization in the list (here Microsoft, hypothesis `h3`). -/
theorem well_known_org_first_org_only (o : OrgOracle) (ip : String)
    (rdns sni : Option String)
    (h1 : orgDomainCheck o ip "google" rdns = false)
    (h2 : orgDomainCheck o ip "google" sni = false)
    (h3 : o.ipInOrg ip "microsoft" = true) :
    is_well_known_org o ip rdns sni = false := by
  simp [is_well_known_org, supported_orgs, h1, h2]

/-- Witness for `well_known_org_first_org_only`: an IP in Microsoft's range
only is reported as not well-known. -/
theorem well_known_org_first_org_only_witness :
    is_well_known_org msOnlyOracle "13.107.42.14" none none = false :=
  well_known_org_first_org_only msOnlyOracle "13.107.42.14" none none
    (by decide) (by decide) (by decide)

/-- C4: ten eligible NXDOMAIN queries (not whitelisted, not ARPA, not
`.local`) for the same profile and timewindow, from an empty NXDOMAIN
counter with the default threshold 10: the first nine accumulate without
evidence, the tenth emits exactly one DGA evidence carrying all ten uids,
and the counter entry is reset to empty lists. -/
theorem detect_dga_threshold_run (wh : String → Bool) (profileid twid : String)
    (q1 q2 q3 q4 q5 q6 q7 q8 q9 q10 : String)
    (u1 u2 u3 u4 u5 u6 u7 u8 u9 u10 : String)
    (h1 : dgaEligible wh q1) (h2 : dgaEligible wh q2) (h3 : dgaEligible wh q3)
    (h4 : dgaEligible wh q4) (h5 : dgaEligible wh q5) (h6 : dgaEligible wh q6)
    (h7 : dgaEligible wh q7) (h8 : dgaEligible wh q8) (h9 : dgaEligible wh q9)
    (h10 : dgaEligible wh q10) :
    runDGA wh 10 [] profileid twid
        [(q1, u1), (q2, u2), (q3, u3), (q4, u4), (q5, u5), (q6, u6), (q7, u7),
         (q8, u8), (q9, u9), (q10, u10)] =
      ([none, none, none, none, none, none, none, none, none,
        some (10, [u1, u2, u3, u4, u5, u6, u7, u8, u9, u10])],
       [(profileid ++ "_" ++ twid, ([], []))]) := by
  obtain ⟨a1, b1, c1⟩ := h1
  obtain ⟨a2, b2, c2⟩ := h2
  obtain ⟨a3, b3, c3⟩ := h3
  obtain ⟨a4, b4, c4⟩ := h4
  obtain ⟨a5, b5, c5⟩ := h5
  obtain ⟨a6, b6, c6⟩ := h6
  obtain ⟨a7, b7, c7⟩ := h7
  obtain ⟨a8, b8, c8⟩ := h8
  obtain ⟨a9, b9, c9⟩ := h9
  obtain ⟨a10, b10, c10⟩ := h10
  simp [runDGA, detect_dga, tblLookup, tblSet,
    a1, b1, c1, a2, b2, c2, a3, b3, c3, a4, b4, c4, a5, b5, c5,
    a6, b6, c6, a7, b7, c7, a8, b8, c8, a9, b9, c9, a10, b10, c10]

/-- Witness for `detect_dga_threshold_run`: `example1.com` … `example10.com`
with nothing whitelisted. -/
theorem detect_dga_threshold_run_witness :
    runDGA (fun _ => false) 10 [] "profile_192.168.1.1" "timewindow1"
        [("example1.com", "w1"), ("example2.com", "w2"), ("example3.com", "w3"),
         ("example4.com", "w4"), ("example5.com", "w5"), ("example6.com", "w6"),
         ("example7.com", "w7"), ("example8.com", "w8"), ("example9.com", "w9"),
         ("example10.com", "w10")] =
      ([none, none, none, none, none, none, none, none, none,
        some (10, ["w1", "w2", "w3", "w4", "w5", "w6", "w7", "w8", "w9", "w10"])],
       [("profile_192.168.1.1" ++ "_" ++ "timewindow1", ([], []))]) :=
  detect_dga_threshold_run (fun _ => false) "profile_192.168.1.1" "timewindow1"
    "example1.com" "example2.com" "example3.com" "example4.com" "example5.com"
    "example6.com" "example7.com" "example8.com" "example9.com" "example10.com"
    "w1" "w2" "w3" "w4" "w5" "w6" "w7" "w8" "w9" "w10"
    (by refine ⟨rfl, by decide, by decide⟩) (by refine ⟨rfl, by decide, by decide⟩)
    (by refine ⟨rfl, by decide, by decide⟩) (by refine ⟨rfl, by decide, by decide⟩)
    (by refine ⟨rfl, by decide, by decide⟩) (by refine ⟨rfl, by decide, by decide⟩)
    (by refine ⟨rfl, by decide, by decide⟩) (by refine ⟨rfl, by decide, by decide⟩)
    (by refine ⟨rfl, by decide, by decide⟩) (by refine ⟨rfl, by decide, by decide⟩)

/-- C8: for every answer of a DNS reply, `check_invalid_dns_answers` emits
exactly one invalid-DNS-answer evidence naming that answer and deletes that
answer's cached resolution exactly once per occurrence, precisely when the
answer is a loopback/invalid address and the query is not `"localhost"`;
otherwise — a valid answer, or any answer of a `"localhost"` query — it
does neither. -/
theorem check_invalid_dns_answers_spec (domain : String) (answers : List String)
    (ans : String) :
    ((check_invalid_dns_answers domain answers).count
        (DnsAction.evidence domain ans) =
      if ans ∈ invalid_answers ∧ domain ≠ "localhost" then answers.count ans
      else 0) ∧
    ((check_invalid_dns_answers domain answers).count
        (DnsAction.deleteResolution ans) =
      if ans ∈ invalid_answers ∧ domain ≠ "localhost" then answers.count ans
      else 0) := by
  induction answers with
  | nil => simp [check_invalid_dns_answers]
  | cons a rest ih =>
    obtain ⟨ih1, ih2⟩ := ih
    by_cases hd : domain = "localhost"
    · subst hd
      simp [check_invalid_dns_answers, ih1, ih2]
    · by_cases ha : a ∈ invalid_answers
      · by_cases haq : a = ans
        · subst haq
          simp [check_invalid_dns_answers, hd, ha, ih1, ih2, List.count_cons]
        · simp [check_invalid_dns_answers, hd, ha, haq, Ne.symm haq, ih1, ih2,
            List.count_cons]
      · by_cases haq : a = ans
        · subst haq
          simp [check_invalid_dns_answers, hd, ha, ih1, ih2, List.count_cons]
        · simp [check_invalid_dns_answers, hd, ha, haq, Ne.symm haq, ih1, ih2,
            List.count_cons]

end Slips
